import Mathlib

/-!
Shallow embedding of `src/abcross/common.py` (abcross-sysroot-manager).

The module defines an `Architecture` enumeration with derived QEMU names,
a binfmt_misc availability check (`have_qemu`), host-architecture detection
(`match_current_arch`), and two subprocess wrappers (`regular_call` and
`privileged_call`).

Modelling conventions:
- Python strings that are examined character by character (file lines,
  interpreter paths) are `List Char`; fixed identifiers (file paths used as
  keys, table values) stay `String`.
- Exceptions are modelled by `Except PyErr`; an uncaught `IndexError` or
  `ValueError` is `Except.error`, a normal return is `Except.ok`.
- The OS is a parameter: `fs : String → Option (List (List Char))` models
  `open(...).readlines()` (with `none` for an `OSError`), and
  `res : List Char → List Char` models `PosixPath(p).resolve()` returning a
  normalized path string.
- `subprocess.run` is a parameter `run : List String → Bool → RunResult`
  (argument vector and `capture_output` flag); log lines that disclose a
  command are modelled as the command's argument vector.
-/

set_option autoImplicit false

namespace Abcross

/-- Exceptions that the embedded code can raise. -/
inductive PyErr where
  | indexError
  | valueError
  deriving DecidableEq, Repr

/-- The `Architecture` enum from `common.py`. -/
inductive Architecture where
  | AMD64
  | ARM64
  | LOONGSON3
  | POWERPC
  | PPC64EL
  | RISCV64
  | MIPS64R6EL
  | ARMV4
  | ARMV6HF
  | ARMV7HF
  | M68K
  | PPC64
  | I486
  deriving DecidableEq, BEq, Repr

/-- The `value` of each enum member (its canonical distribution-facing name). -/
def archValue : Architecture → String
  | .AMD64 => "amd64"
  | .ARM64 => "arm64"
  | .LOONGSON3 => "loongson3"
  | .POWERPC => "powerpc"
  | .PPC64EL => "ppc64el"
  | .RISCV64 => "riscv64"
  | .MIPS64R6EL => "mips64r6el"
  | .ARMV4 => "armv4"
  | .ARMV6HF => "armv6hf"
  | .ARMV7HF => "armv7hf"
  | .M68K => "m68k"
  | .PPC64 => "ppc64"
  | .I486 => "i486"

/-- The case arms of `Architecture.qemu_arch`, in source order; the arm
`ARMV4 | ARMV6HF | ARMV7HF` contributes one entry per variant, all mapping
to `"arm"`. -/
def qemuArchTable : List (Architecture × String) :=
  [(.AMD64, "amd64"),
   (.ARM64, "aarch64"),
   (.LOONGSON3, "mips64el"),
   (.POWERPC, "ppc"),
   (.PPC64EL, "ppc64le"),
   (.RISCV64, "riscv64"),
   (.MIPS64R6EL, "mips64el"),
   (.ARMV4, "arm"),
   (.ARMV6HF, "arm"),
   (.ARMV7HF, "arm"),
   (.M68K, "m68k"),
   (.PPC64, "ppc64"),
   (.I486, "i386")]

/-- `Architecture.qemu_arch`: first matching case wins; the wildcard arm
`case _: raise ValueError` is the `none` branch of the lookup. -/
def qemu_archE (a : Architecture) : Except PyErr String :=
  match qemuArchTable.lookup a with
  | some s => Except.ok s
  | none => Except.error PyErr.valueError

/-- The string `qemu_arch` returns when it does not raise (pure accessor used
to state theorems; `""` is a dummy for the unreachable error branch). -/
def qemu_archS (a : Architecture) : String :=
  match qemu_archE a with
  | Except.ok s => s
  | Except.error _ => ""

/-- `Architecture.qemu_bin`: `f"qemu-{self.qemu_arch()}-static"`. -/
def qemu_binE (a : Architecture) : Except PyErr String :=
  (qemu_archE a).map (fun s => "qemu-" ++ s ++ "-static")

/-- The string `qemu_bin` returns when it does not raise. -/
def qemu_binS (a : Architecture) : String :=
  "qemu-" ++ qemu_archS a ++ "-static"

/-- The binfmt registration file path computed in `have_qemu`:
`f"/proc/sys/fs/binfmt_misc/qemu-{self.qemu_arch()}"`. -/
def binfmt_path (a : Architecture) : String :=
  "/proc/sys/fs/binfmt_misc/qemu-" ++ qemu_archS a

/-- `Architecture.standard_sysroot`: `PosixPath(f"/var/ab/cross-root/{self.value}")`. -/
def standard_sysroot (a : Architecture) : String :=
  "/var/ab/cross-root/" ++ archValue a

/-- `Architecture.match_current_arch`, with the result of `platform.machine()`
passed in as the `machine` argument; the match statement is a sequence of
equality tests in source order. -/
def match_current_arch (machine : String) : Option Architecture :=
  if machine = "x86_64" then some Architecture.AMD64
  else if machine = "aarch64" then some Architecture.ARM64
  else if machine = "riscv64" then some Architecture.RISCV64
  else if machine = "ppc" then some Architecture.POWERPC
  else if machine = "ppc64le" then some Architecture.PPC64EL
  else if machine = "mips64" then none
  else none

/-- ASCII whitespace stripped by Python `str.strip()`. -/
def pyIsSpace (c : Char) : Bool :=
  c = ' ' || c = '\t' || c = '\n' || c = '\r' || c = '\x0b' || c = '\x0c'

/-- Python `str.strip()` on a line. -/
def pyStrip (l : List Char) : List Char :=
  ((l.dropWhile pyIsSpace).reverse.dropWhile pyIsSpace).reverse

/-- Python list indexing `l[i]`: raises `IndexError` when out of range. -/
def pyGet {α : Type} (l : List α) (i : Nat) : Except PyErr α :=
  match l.get? i with
  | some x => Except.ok x
  | none => Except.error PyErr.indexError

/-- `PosixPath(p).name`: the final path component (of a normalized path). -/
def posixName (p : List Char) : List Char :=
  (p.reverse.takeWhile (fun c => c ≠ '/')).reverse

/-- Whether a prefix `p` of the text after `interpreter ` is a match for the
group `(?P<path>.+<base>)`: at least one `.`-matched character (no newline)
followed by the literal `base`. -/
def goodPath (base p : List Char) : Bool :=
  decide (base.length < p.length) && base.isSuffixOf p &&
    !(p.take (p.length - base.length)).contains '\n'

/-- `re.match(f"interpreter (?P<path>.+{base_name})", line)`: anchored at the
start of `line`; on success returns the group `path`, which greedy matching
makes the longest admissible prefix of the text after `interpreter `. -/
def reMatchInterp (base line : List Char) : Option (List Char) :=
  if "interpreter ".data.isPrefixOf line then
    let rest := line.drop "interpreter ".data.length
    match (List.range (rest.length + 1)).reverse.find? (fun k => goodPath base (rest.take k)) with
    | some k => some (rest.take k)
    | none => none
  else none

/-- Body of `Architecture.have_qemu` after `base_name` and `binfmt_reg_name`
are computed: open/readlines (an `OSError` is caught and yields `None`),
check `content[0].strip()`, match `content[1]` against the interpreter
pattern, compare the resolved path's final component with `base_name`,
and on success return the matched (unresolved) path. -/
def have_qemu_core (base : List Char) (reg : String)
    (fs : String → Option (List (List Char))) (res : List Char → List Char) :
    Except PyErr (Option (List Char)) :=
  match fs reg with
  | none => Except.ok none
  | some content =>
    match pyGet content 0 with
    | Except.error e => Except.error e
    | Except.ok l0 =>
      if pyStrip l0 ≠ "enabled".data then
        Except.ok none
      else
        match pyGet content 1 with
        | Except.error e => Except.error e
        | Except.ok l1 =>
          match reMatchInterp base l1 with
          | none => Except.ok none
          | some path_interp =>
            if posixName (res path_interp) ≠ base then
              Except.ok none
            else
              Except.ok (some path_interp)

/-- `Architecture.have_qemu`: computes `base_name = self.qemu_bin()` and
`binfmt_reg_name` (both may in principle raise `ValueError` via `qemu_arch`),
then runs the check body. -/
def have_qemu (a : Architecture) (fs : String → Option (List (List Char)))
    (res : List Char → List Char) : Except PyErr (Option (List Char)) :=
  match qemu_binE a with
  | Except.error e => Except.error e
  | Except.ok base_name =>
    match qemu_archE a with
    | Except.error e => Except.error e
    | Except.ok qa =>
      have_qemu_core base_name.data ("/proc/sys/fs/binfmt_misc/qemu-" ++ qa) fs res

/-- Result triple of `subprocess.run`: stdout, stderr, returncode. -/
abbrev RunResult := String × String × Int

/-- `privileged_call(argv, interactive)`: `run` models `subprocess.run`
applied to the argument vector and the `capture_output` flag; the second
component collects the `logger.info` disclosure lines, each represented by
the argument vector it discloses. -/
def privileged_call (euid : Nat) (run : List String → Bool → RunResult)
    (argv : List String) (interactive : Bool) : RunResult × List (List String) :=
  let need_sudo : Bool := euid != 0
  let call_args := (if need_sudo then ["sudo"] else []) ++ argv
  let logs := if need_sudo then [call_args] else []
  (run call_args (!interactive), logs)

/-- `regular_call(argv, interactive)`. -/
def regular_call (run : List String → Bool → RunResult)
    (argv : List String) (interactive : Bool) : RunResult :=
  run argv (!interactive)

/-- `qemu_archE` never raises: it returns `qemu_archS`. -/
theorem qemu_archE_eq (a : Architecture) : qemu_archE a = Except.ok (qemu_archS a) := by
  cases a <;> rfl

/-- `qemu_binE` never raises: it returns `qemu_binS`. -/
theorem qemu_binE_eq (a : Architecture) : qemu_binE a = Except.ok (qemu_binS a) := by
  cases a <;> rfl

/-- `have_qemu` reduces to the core check at the variant's expected binary
name and registration path. -/
theorem have_qemu_eq (a : Architecture) (fs : String → Option (List (List Char)))
    (res : List Char → List Char) :
    have_qemu a fs res = have_qemu_core (qemu_binS a).data (binfmt_path a) fs res := by
  cases a <;> rfl

/-- If the registration file cannot be opened, the core check yields `None`. -/
theorem core_file_missing (base : List Char) (reg : String)
    (fs : String → Option (List (List Char))) (res : List Char → List Char)
    (h : fs reg = none) : have_qemu_core base reg fs res = Except.ok none := by
  unfold have_qemu_core
  rw [h]

/-- If the first line does not strip to `enabled`, the core check yields `None`. -/
theorem core_not_enabled (base : List Char) (reg : String)
    (fs : String → Option (List (List Char))) (res : List Char → List Char)
    (l0 : List Char) (t : List (List Char)) (h : fs reg = some (l0 :: t))
    (he : pyStrip l0 ≠ "enabled".data) :
    have_qemu_core base reg fs res = Except.ok none := by
  unfold have_qemu_core
  rw [h]
  simp [pyGet, he]

/-- With at least two lines and an `enabled` first line, the core check reduces
to the interpreter-line match followed by the resolved-basename comparison. -/
theorem core_enabled (base : List Char) (reg : String)
    (fs : String → Option (List (List Char))) (res : List Char → List Char)
    (l0 l1 : List Char) (t : List (List Char)) (h : fs reg = some (l0 :: l1 :: t))
    (he : pyStrip l0 = "enabled".data) :
    have_qemu_core base reg fs res =
      match reMatchInterp base l1 with
      | none => Except.ok none
      | some p =>
        if posixName (res p) ≠ base then Except.ok none else Except.ok (some p) := by
  unfold have_qemu_core
  rw [h]
  simp [pyGet, he]

/-- C5: for every argument vector and interactive flag, `privileged_call` with
a non-root effective UID prepends `sudo` to the argument vector passed to the
process launcher and emits a disclosure log of the full command; with euid 0
the launcher receives the caller's argv unmodified and no log is emitted. -/
theorem privileged_call_sudo_spec :
    ∀ (euid : Nat) (run : List String → Bool → RunResult)
      (argv : List String) (interactive : Bool),
      (euid ≠ 0 →
        privileged_call euid run argv interactive =
          (run ("sudo" :: argv) (!interactive), ["sudo" :: argv])) ∧
      (euid = 0 →
        privileged_call euid run argv interactive = (run argv (!interactive), [])) := by
  intro euid run argv interactive
  constructor
  · intro h
    simp [privileged_call, h]
  · intro h
    subst h
    simp [privileged_call]

/-- Witness for C5: euid 1000 gets a `sudo` prefix and a disclosure log;
euid 0 gets the unmodified argv and no log. -/
theorem privileged_call_sudo_spec_witness :
    privileged_call 1000 (fun a _ => (String.join a, "", 0)) ["ls", "-l"] false =
      (("sudols-l", "", 0), [["sudo", "ls", "-l"]]) ∧
    privileged_call 0 (fun a _ => (String.join a, "", 0)) ["ls", "-l"] false =
      (("ls-l", "", 0), []) :=
  ⟨(privileged_call_sudo_spec 1000 (fun a _ => (String.join a, "", 0)) ["ls", "-l"] false).1
      (by decide),
   (privileged_call_sudo_spec 0 (fun a _ => (String.join a, "", 0)) ["ls", "-l"] false).2 rfl⟩

/-- C6: `match_current_arch` returns `none` for every machine string outside
{x86_64, aarch64, riscv64, ppc, ppc64le} (including `mips64`), and maps each
string in that set to its corresponding variant. -/
theorem match_current_arch_spec :
    (∀ s : String,
        s ∉ (["x86_64", "aarch64", "riscv64", "ppc", "ppc64le"] : List String) →
        match_current_arch s = none) ∧
    match_current_arch "x86_64" = some Architecture.AMD64 ∧
    match_current_arch "aarch64" = some Architecture.ARM64 ∧
    match_current_arch "riscv64" = some Architecture.RISCV64 ∧
    match_current_arch "ppc" = some Architecture.POWERPC ∧
    match_current_arch "ppc64le" = some Architecture.PPC64EL ∧
    match_current_arch "mips64" = none := by
  refine ⟨?_, rfl, rfl, rfl, rfl, rfl, rfl⟩
  intro s hs
  simp only [List.mem_cons, List.not_mem_nil, or_false, not_or] at hs
  obtain ⟨h1, h2, h3, h4, h5⟩ := hs
  simp [match_current_arch, h1, h2, h3, h4, h5]

/-- Witness for C6: `m68k` (a retro architecture string) is outside the
detected set and yields no match. -/
theorem match_current_arch_spec_witness :
    ("m68k" : String) ∉ (["x86_64", "aarch64", "riscv64", "ppc", "ppc64le"] : List String) ∧
    match_current_arch "m68k" = none :=
  ⟨by decide, match_current_arch_spec.1 "m68k" (by decide)⟩

/-- C7: every variant of the closed enumeration has exactly one entry in the
QEMU-arch lookup, so `qemu_arch` returns a string and its `ValueError` branch
is unreachable. -/
theorem qemu_arch_total :
    ∀ a : Architecture,
      (∃ s, qemu_archE a = Except.ok s) ∧
      qemuArchTable.countP (fun e => e.1 == a) = 1 := by
  intro a
  cases a <;> exact ⟨⟨_, rfl⟩, rfl⟩

/-- C8: in non-interactive mode, `regular_call` and `privileged_call` return
the child process's captured stdout, stderr and exit status verbatim — exactly
the triple produced by the launcher run with output capture on. -/
theorem calls_propagate_status :
    ∀ (run : List String → Bool → RunResult) (argv : List String) (euid : Nat),
      regular_call run argv false = run argv true ∧
      (privileged_call euid run argv false).1 =
        run ((if euid = 0 then [] else ["sudo"]) ++ argv) true := by
  intro run argv euid
  refine ⟨rfl, ?_⟩
  by_cases h : euid = 0 <;> simp [privileged_call, h]

/-- C9: `qemu_bin` is exactly `"qemu-" ++ qemu_arch ++ "-static"` for every
variant, and `standard_sysroot` is `/var/ab/cross-root/<canonical-name>`,
in particular `/var/ab/cross-root/amd64` for `amd64`. -/
theorem qemu_bin_and_sysroot_spec :
    (∀ a : Architecture,
        qemu_binE a = Except.ok ("qemu-" ++ qemu_archS a ++ "-static")) ∧
    (∀ a : Architecture, standard_sysroot a = "/var/ab/cross-root/" ++ archValue a) ∧
    standard_sysroot Architecture.AMD64 = "/var/ab/cross-root/amd64" := by
  refine ⟨?_, fun a => rfl, rfl⟩
  intro a
  cases a <;> rfl

/-- C10: `loongson3` and `mips64r6el` share the QEMU name `mips64el`, hence
the same QEMU binary name and the same binfmt registration path, so
`have_qemu` cannot distinguish the two variants on any system state. -/
theorem loongson3_mips64r6el_indistinguishable :
    qemu_archE Architecture.LOONGSON3 = Except.ok "mips64el" ∧
    qemu_archE Architecture.MIPS64R6EL = Except.ok "mips64el" ∧
    qemu_binE Architecture.LOONGSON3 = qemu_binE Architecture.MIPS64R6EL ∧
    binfmt_path Architecture.LOONGSON3 = "/proc/sys/fs/binfmt_misc/qemu-mips64el" ∧
    binfmt_path Architecture.MIPS64R6EL = "/proc/sys/fs/binfmt_misc/qemu-mips64el" ∧
    ∀ (fs : String → Option (List (List Char))) (res : List Char → List Char),
      have_qemu Architecture.LOONGSON3 fs res = have_qemu Architecture.MIPS64R6EL fs res :=
  ⟨rfl, rfl, rfl, rfl, rfl, fun _ _ => rfl⟩

/-- Registration file content for a correctly registered aarch64 handler. -/
def arm64RegContent : List (List Char) :=
  ["enabled\n".data, "interpreter /usr/bin/qemu-aarch64-static\n".data]

/-- A filesystem where `/usr/bin/qemu-aarch64-static` is a symbolic link to
`/opt/qemu/qemu-aarch64-static`; every other path resolves to itself. -/
def symlinkResolve (q : List Char) : List Char :=
  if q = "/usr/bin/qemu-aarch64-static".data then "/opt/qemu/qemu-aarch64-static".data else q

/-- Counterexample for C1: with a registration file naming
`/usr/bin/qemu-aarch64-static`, which resolves to
`/opt/qemu/qemu-aarch64-static` (same basename, so every success condition
holds), `have_qemu` returns the unresolved registration path, not the path
obtained by following the symbolic link. -/
theorem have_qemu_returns_unresolved_cex :
    have_qemu Architecture.ARM64 (fun _ => some arm64RegContent) symlinkResolve =
      Except.ok (some "/usr/bin/qemu-aarch64-static".data) ∧
    symlinkResolve "/usr/bin/qemu-aarch64-static".data ≠ "/usr/bin/qemu-aarch64-static".data ∧
    posixName (symlinkResolve "/usr/bin/qemu-aarch64-static".data) = "qemu-aarch64-static".data :=
  ⟨rfl, by decide, by decide⟩

/-- C1 (amended): when every success condition holds — the registration file
is readable, its first line strips to `enabled`, the interpreter line matches
and the matched path's resolved basename equals the expected binary name —
`have_qemu` returns the matched path exactly as written in the registration
file (symlink resolution is used only to validate the basename). -/
theorem have_qemu_success_returns_matched_path :
    ∀ (a : Architecture) (fs : String → Option (List (List Char)))
      (res : List Char → List Char) (l0 l1 : List Char) (t : List (List Char))
      (p : List Char),
      fs (binfmt_path a) = some (l0 :: l1 :: t) →
      pyStrip l0 = "enabled".data →
      reMatchInterp (qemu_binS a).data l1 = some p →
      posixName (res p) = (qemu_binS a).data →
      have_qemu a fs res = Except.ok (some p) := by
  intro a fs res l0 l1 t p h he hm hn
  rw [have_qemu_eq, core_enabled (qemu_binS a).data (binfmt_path a) fs res l0 l1 t h he, hm]
  simp [hn]

/-- Witness for C1 (amended): a well-formed aarch64 registration with an
identity resolver returns the path from the interpreter line. -/
theorem have_qemu_success_returns_matched_path_witness :
    have_qemu Architecture.ARM64 (fun _ => some arm64RegContent) (fun q => q) =
      Except.ok (some "/usr/bin/qemu-aarch64-static".data) :=
  have_qemu_success_returns_matched_path Architecture.ARM64
    (fun _ => some arm64RegContent) (fun q => q)
    "enabled\n".data "interpreter /usr/bin/qemu-aarch64-static\n".data []
    "/usr/bin/qemu-aarch64-static".data rfl (by decide) (by decide) (by decide)

/-- Counterexample for C2: a readable but empty registration file makes
`have_qemu` raise `IndexError` at `content[0]` instead of returning a result. -/
theorem have_qemu_short_file_raises_cex :
    have_qemu Architecture.ARM64 (fun _ => some []) (fun q => q) =
      Except.error PyErr.indexError ∧
    have_qemu Architecture.ARM64 (fun _ => some ["enabled\n".data]) (fun q => q) =
      Except.error PyErr.indexError :=
  ⟨rfl, rfl⟩

/-- C2 (amended): for every variant and every filesystem whose readable files
all have at least two lines, `have_qemu` terminates normally with `Except.ok`
(an interpreter path or `None`); with fewer than two lines it can raise
`IndexError`. -/
theorem have_qemu_no_raise_two_lines :
    ∀ (a : Architecture) (fs : String → Option (List (List Char)))
      (res : List Char → List Char),
      (∀ (p : String) (c : List (List Char)), fs p = some c → 2 ≤ c.length) →
      ∃ r, have_qemu a fs res = Except.ok r := by
  intro a fs res h
  rw [have_qemu_eq]
  cases hfs : fs (binfmt_path a) with
  | none => exact ⟨none, core_file_missing _ _ _ _ hfs⟩
  | some content =>
    have hlen := h _ _ hfs
    match content, hlen with
    | l0 :: l1 :: t, _ =>
      by_cases he : pyStrip l0 = "enabled".data
      · rw [core_enabled (qemu_binS a).data (binfmt_path a) fs res l0 l1 t hfs he]
        cases hm : reMatchInterp (qemu_binS a).data l1 with
        | none => exact ⟨none, rfl⟩
        | some p =>
          by_cases hn : posixName (res p) = (qemu_binS a).data
          · exact ⟨some p, by simp [hn]⟩
          · exact ⟨none, by simp [hn]⟩
      · exact ⟨none, core_not_enabled _ _ _ _ _ _ hfs he⟩

/-- Witness for C2 (amended): a two-line disabled registration satisfies the
length hypothesis and produces a normal result. -/
theorem have_qemu_no_raise_two_lines_witness :
    ∃ r, have_qemu Architecture.AMD64
      (fun _ => some ["disabled\n".data, "flags: F\n".data]) (fun q => q) =
      Except.ok r :=
  have_qemu_no_raise_two_lines Architecture.AMD64
    (fun _ => some ["disabled\n".data, "flags: F\n".data]) (fun q => q)
    (by
      intro p c hc
      injection hc with hc
      subst hc
      decide)

/-- Counterexample for C3: the check strips the first line before comparing,
so a first line `" enabled\n"` — not exactly the string `enabled` — still
lets the check succeed and return an interpreter path instead of `None`. -/
theorem have_qemu_strip_enabled_cex :
    (" enabled\n".data ≠ "enabled".data) ∧
    have_qemu Architecture.ARM64
      (fun _ => some [" enabled\n".data, "interpreter /usr/bin/qemu-aarch64-static\n".data])
      (fun q => q) = Except.ok (some "/usr/bin/qemu-aarch64-static".data) ∧
    some "/usr/bin/qemu-aarch64-static".data ≠ (none : Option (List Char)) :=
  ⟨by decide, rfl, by decide⟩

/-- C3 (amended): if the first line of the registration file does not strip
(leading and trailing whitespace removed) to `enabled`, `have_qemu` returns
`None`. -/
theorem have_qemu_not_enabled_none :
    ∀ (a : Architecture) (fs : String → Option (List (List Char)))
      (res : List Char → List Char) (l0 : List Char) (t : List (List Char)),
      fs (binfmt_path a) = some (l0 :: t) →
      pyStrip l0 ≠ "enabled".data →
      have_qemu a fs res = Except.ok none := by
  intro a fs res l0 t h he
  rw [have_qemu_eq]
  exact core_not_enabled _ _ _ _ _ _ h he

/-- Witness for C3 (amended): a first line `disabled` yields `None`. -/
theorem have_qemu_not_enabled_none_witness :
    have_qemu Architecture.I486
      (fun _ => some ["disabled\n".data, "interpreter /usr/bin/qemu-i386-static\n".data])
      (fun q => q) = Except.ok none :=
  have_qemu_not_enabled_none Architecture.I486
    (fun _ => some ["disabled\n".data, "interpreter /usr/bin/qemu-i386-static\n".data])
    (fun q => q) "disabled\n".data ["interpreter /usr/bin/qemu-i386-static\n".data]
    rfl (by decide)

/-- C4: `have_qemu` returns `None` when (a) the registration file does not
exist, (b) the first line is `disabled`, (c) the second line does not match
the `interpreter <path>` pattern ending in the expected binary name, or
(d) the line matches but the matched path's resolved basename differs from
the expected binary name. -/
theorem have_qemu_unavailable_cases :
    ∀ (a : Architecture) (fs : String → Option (List (List Char)))
      (res : List Char → List Char),
      (fs (binfmt_path a) = none → have_qemu a fs res = Except.ok none) ∧
      (∀ (l0 : List Char) (t : List (List Char)),
        fs (binfmt_path a) = some (l0 :: t) → pyStrip l0 = "disabled".data →
        have_qemu a fs res = Except.ok none) ∧
      (∀ (l0 l1 : List Char) (t : List (List Char)),
        fs (binfmt_path a) = some (l0 :: l1 :: t) →
        reMatchInterp (qemu_binS a).data l1 = none →
        have_qemu a fs res = Except.ok none) ∧
      (∀ (l0 l1 : List Char) (t : List (List Char)) (p : List Char),
        fs (binfmt_path a) = some (l0 :: l1 :: t) →
        reMatchInterp (qemu_binS a).data l1 = some p →
        posixName (res p) ≠ (qemu_binS a).data →
        have_qemu a fs res = Except.ok none) := by
  intro a fs res
  refine ⟨?_, ?_, ?_, ?_⟩
  · intro h
    rw [have_qemu_eq]
    exact core_file_missing _ _ _ _ h
  · intro l0 t h hd
    rw [have_qemu_eq]
    refine core_not_enabled _ _ _ _ _ _ h ?_
    rw [hd]
    decide
  · intro l0 l1 t h hm
    rw [have_qemu_eq]
    by_cases he : pyStrip l0 = "enabled".data
    · rw [core_enabled (qemu_binS a).data (binfmt_path a) fs res l0 l1 t h he, hm]
    · exact core_not_enabled _ _ _ _ _ _ h he
  · intro l0 l1 t p h hm hn
    rw [have_qemu_eq]
    by_cases he : pyStrip l0 = "enabled".data
    · rw [core_enabled (qemu_binS a).data (binfmt_path a) fs res l0 l1 t h he, hm]
      simp [hn]
    · exact core_not_enabled _ _ _ _ _ _ h he

/-- Witness for C4: each of the four failure shapes at a concrete input —
missing file, `disabled` first line, a non-matching second line, and a
registration whose path resolves to a binary with the wrong basename. -/
theorem have_qemu_unavailable_cases_witness :
    have_qemu Architecture.RISCV64 (fun _ => none) (fun q => q) = Except.ok none ∧
    have_qemu Architecture.RISCV64
      (fun _ => some ["disabled\n".data, "interpreter /usr/bin/qemu-riscv64-static\n".data])
      (fun q => q) = Except.ok none ∧
    have_qemu Architecture.RISCV64
      (fun _ => some ["enabled\n".data, "flags: F\n".data])
      (fun q => q) = Except.ok none ∧
    have_qemu Architecture.RISCV64
      (fun _ => some ["enabled\n".data, "interpreter /usr/bin/qemu-riscv64-static\n".data])
      (fun _ => "/usr/bin/qemu-arm-static".data) = Except.ok none :=
  ⟨(have_qemu_unavailable_cases Architecture.RISCV64 (fun _ => none) (fun q => q)).1 rfl,
   (have_qemu_unavailable_cases Architecture.RISCV64
      (fun _ => some ["disabled\n".data, "interpreter /usr/bin/qemu-riscv64-static\n".data])
      (fun q => q)).2.1
     "disabled\n".data ["interpreter /usr/bin/qemu-riscv64-static\n".data] rfl (by decide),
   (have_qemu_unavailable_cases Architecture.RISCV64
      (fun _ => some ["enabled\n".data, "flags: F\n".data]) (fun q => q)).2.2.1
     "enabled\n".data "flags: F\n".data [] rfl (by decide),
   (have_qemu_unavailable_cases Architecture.RISCV64
      (fun _ => some ["enabled\n".data, "interpreter /usr/bin/qemu-riscv64-static\n".data])
      (fun _ => "/usr/bin/qemu-arm-static".data)).2.2.2
     "enabled\n".data "interpreter /usr/bin/qemu-riscv64-static\n".data []
     "/usr/bin/qemu-riscv64-static".data rfl (by decide) (by decide)⟩

end Abcross
